import Mathlib

/-!
Verification development for the Stagehand OpenRouter client
(`examples/external_clients/openrouter.ts`-style file found in this repository).

The TypeScript client is shallowly embedded:
 * JavaScript objects become Lean structures;
 * the mutation of `options.messages` (an array shared by reference between
   `options` and `cacheOptions`) is made explicit by threading the options
   record through the computation and recomputing the cache key at `set` time;
 * the remote provider is an oracle `remote : Nat → Resp` giving the response
   to the n-th remote call of the run;
 * `JSON.parse` is an oracle `jsonParse : String → Except String JsonValue`
   (it is a JavaScript built-in, external to the repository);
 * a zod schema is a record of its `parse` method (returning `Except`, the
   embedding of "returns normally or throws") and of its `JSON.stringify`
   rendering;
 * the `LLMCache` collaborator is not part of the given sources; following the
   spec, its key is derived from the fields the client collects for
   `cacheOptions`, with the response model contributing its schema name, and
   the request identifier is ignored for lookup.
-/

namespace OpenRouter

/-- Conversation roles of the inbound message type (spec §3). -/
inductive Role
  | system
  | user
  | assistant
deriving DecidableEq

/-- One part of an array-valued message content: text, or an image reference.
In the source a part is an object that either has an `image_url.url` field or
a `text` field; the client discriminates with `"image_url" in content`. -/
inductive ContentPart
  | text (t : String)
  | image (url : String)
deriving DecidableEq

/-- Message content: a plain string or an ordered list of parts. -/
inductive MsgContent
  | str (s : String)
  | parts (ps : List ContentPart)
deriving DecidableEq

/-- An inbound conversation turn. -/
structure ChatMessage where
  role : Role
  content : MsgContent
deriving DecidableEq

/-- A callable-tool descriptor (name, description, parameter schema);
the parameter schema is kept opaque as its rendered form. -/
structure Tool where
  name : String
  description : String
  parameters : String
deriving DecidableEq

/-- JSON values, the results of `JSON.parse`. -/
inductive JsonValue
  | null
  | bool (b : Bool)
  | num (n : Int)
  | str (s : String)
  | arr (elems : List JsonValue)
  | obj (fields : List (String × JsonValue))

/-- JavaScript truthiness of a JSON value (`null`, `false`, `0` and the empty
string are falsy; arrays and objects are always truthy). -/
def JsonValue.truthy : JsonValue → Bool
  | .null => false
  | .bool b => b
  | .num n => !(n = 0)
  | .str s => !(s = "")
  | .arr _ => true
  | .obj _ => true

/-- A zod schema as the client uses it: its `parse` method (success or a
raised validation error, embedded as `Except`) and its `JSON.stringify`
rendering (used verbatim inside the Gemini instruction turn). -/
structure ZodSchema where
  parse : JsonValue → Except String Unit
  stringified : String

/-- The `response_model` field of the options: a name and a zod schema. -/
structure ResponseModel where
  name : String
  schema : ZodSchema

/-- The options record of `createChatCompletion` (spec §3 CompletionRequest).
Sampling parameters are opaque numbers; `image` is opaque. -/
structure ChatOptions where
  messages : List ChatMessage
  temperature : Option Int
  top_p : Option Int
  frequency_penalty : Option Int
  presence_penalty : Option Int
  image : Option String
  requestId : String
  response_model : Option ResponseModel
  tools : Option (List Tool)

/-- A raw provider response, as far as the client inspects it:
either `response?.choices?.[0]?.message` is missing, or a message exists and
carries a content string (possibly absent/null). -/
inductive Resp
  | noMessage
  | message (content : Option String)
deriving DecidableEq

/-- What `createChatCompletion` can return: the raw response (no-schema path)
or the JSON value parsed from the message content (schema path). -/
inductive CompletionResult
  | raw (r : Resp)
  | parsed (v : JsonValue)

/-- JavaScript truthiness of a value returned by the cache: a raw response
object is truthy; a parsed JSON value is truthy per `JsonValue.truthy`. -/
def CompletionResult.truthy : CompletionResult → Bool
  | .raw _ => true
  | .parsed v => v.truthy

/-- The cache key (spec §3 CacheKey). The client collects
`{model, messages, temperature, top_p, frequency_penalty, presence_penalty,
image, response_model}` into `cacheOptions` (source lines 141-150); the
`LLMCache` collaborator itself is not among the given sources.
Modelled from the spec: the key is derived deterministically from
`{model, messages, temperature, top_p, frequency_penalty, presence_penalty,
image, schema-name}`, where the response model contributes its name, and the
request identifier is excluded. -/
structure CacheKey where
  model : String
  messages : List ChatMessage
  temperature : Option Int
  top_p : Option Int
  frequency_penalty : Option Int
  presence_penalty : Option Int
  image : Option String
  schemaName : Option String
deriving DecidableEq

/-- The cache-key fields the client assembles from the options
(source lines 141-150); the `messages` field shares the (mutable) messages
array of `options`, which is why the key is recomputed from the current
options record wherever the source reads `cacheOptions`. -/
def mkCacheKey (model : String) (o : ChatOptions) : CacheKey :=
  { model := model
    messages := o.messages
    temperature := o.temperature
    top_p := o.top_p
    frequency_penalty := o.frequency_penalty
    presence_penalty := o.presence_penalty
    image := o.image
    schemaName := o.response_model.map (fun rm => rm.name) }

/-- Modelled from the spec: `LLMCache.get(key, requestId)` (the cache storage
is an external collaborator, §4.4); lookup is by key only, the request
identifier "is used only as a secondary lookup/invalidation handle" and does
not affect which entry is found. -/
def cacheGet (cache : List (CacheKey × CompletionResult)) (key : CacheKey)
    (_requestId : String) : Option CompletionResult :=
  (cache.find? (fun e => decide (e.1 = key))).map (fun e => e.2)

/-- Modelled from the spec: `LLMCache.set(key, value, requestId)`; last write
wins for a given key (§4.4), so the new entry is placed in front. -/
def cacheSet (cache : List (CacheKey × CompletionResult)) (key : CacheKey)
    (v : CompletionResult) (_requestId : String) :
    List (CacheKey × CompletionResult) :=
  (key, v) :: cache

/-- The observable log events the client emits through `logger`.
`creating` stands for the two "creating chat completion" events
(source lines 122 and 199), `cacheHit` for the "LLM cache hit" event
(line 158), `response` for the "response" event (line 288), and
`failedToParse` for the "Failed to parse response" event (line 353) with its
auxiliary error message and offending content. -/
inductive LogEvent
  | creating
  | cacheHit
  | response
  | failedToParse (errMsg : String) (content : String)
deriving DecidableEq

/-- An outbound wire content part (`ChatCompletionContentPartText` or
`ChatCompletionContentPartImage`). -/
inductive WirePart
  | text (t : String)
  | imageUrl (url : String)
deriving DecidableEq

/-- Outbound wire message content. -/
inductive WireContent
  | str (s : String)
  | parts (ps : List WirePart)
deriving DecidableEq

/-- An outbound wire message. -/
structure WireMessage where
  role : Role
  content : WireContent
deriving DecidableEq

/-- The `response_format` directive: `zodResponseFormat(schema, name)` builds
a JSON-schema response format from the zod schema and its name. -/
inductive ResponseFormat
  | jsonSchema (name : String) (schemaStr : String)
deriving DecidableEq

/-- Embedding of `zodResponseFormat` from `openai/helpers/zod` as far as the
client observes it: it carries the schema (by its rendering) and the name. -/
def zodResponseFormat (schema : ZodSchema) (name : String) : ResponseFormat :=
  .jsonSchema name schema.stringified

/-- The request body of one remote call (source lines 270-284). -/
structure WireBody where
  model : String
  messages : List WireMessage
  response_format : Option ResponseFormat
  stream : Bool
  temperature : Option Int
  top_p : Option Int
  frequency_penalty : Option Int
  presence_penalty : Option Int
  tools : Option (List Tool)
deriving DecidableEq

/-- The mutable world the client touches: the cache contents, the bodies of
the remote calls issued so far (in order), and the emitted log events. -/
structure St where
  cache : List (CacheKey × CompletionResult)
  sentBodies : List WireBody
  logs : List LogEvent

/-- The client's own configuration (constructor state). -/
structure Client where
  modelName : String
  enableCaching : Bool

/-- JavaScript `String.prototype.startsWith`. -/
def strStartsWith (s pre : String) : Bool :=
  pre.data.isPrefixOf s.data

/-- `validateZodSchema` (source lines 74-81): try to parse, return `true` on
success and `false` on any raised validation error; the error detail is
discarded and nothing propagates. -/
def validateZodSchema (schema : ZodSchema) (data : JsonValue) : Bool :=
  match schema.parse data with
  | .ok _ => true
  | .error _ => false

/-- The JavaScript whitespace class `\s` (restricted to its ASCII members,
the only ones these claims exercise). -/
def wsChar (c : Char) : Bool :=
  c = ' ' || c = '\t' || c = '\n' || c = '\r' || c = '\x0b' || c = '\x0c'

/-- `extractedData.replace(/^\s*\x60\x60\x60(?:json)?\n?/g, "")`
(source line 331): anchored at the start, so the (single possible) match is a
maximal leading whitespace run followed by three backticks, then an optional
`json`, then an optional newline; when there is no such match the string is
unchanged. -/
def stripLeadingFence (cs : List Char) : List Char :=
  let rest := cs.dropWhile wsChar
  if ['`', '`', '`'].isPrefixOf rest then
    let r := rest.drop 3
    let r1 := if ['j', 's', 'o', 'n'].isPrefixOf r then r.drop 4 else r
    if r1.head? = some '\n' then r1.tail else r1
  else cs

/-- `.replace(/\n?\x60\x60\x60\s*$/g, "")` (source line 332): anchored at the
end, so the (single possible, leftmost) match is an optional newline, three
backticks, and a trailing whitespace run reaching the end of the string. -/
def stripTrailingFence (cs : List Char) : List Char :=
  let rest := cs.reverse.dropWhile wsChar
  if ['`', '`', '`'].isPrefixOf rest then
    let r := rest.drop 3
    (if r.head? = some '\n' then r.tail else r).reverse
  else cs

/-- JavaScript `String.prototype.trim` (whitespace as in `wsChar`). -/
def trimWS (cs : List Char) : List Char :=
  ((cs.dropWhile wsChar).reverse.dropWhile wsChar).reverse

/-- The content-cleaning step of the schema path (source lines 330-333). -/
def cleanContent (s : String) : String :=
  String.mk (trimWS (stripTrailingFence (stripLeadingFence s.data)))

/-- The system turn the client appends for Gemini models
(source lines 182-185). -/
def schemaInstructionTurn (rm : ResponseModel) : ChatMessage :=
  { role := .system
    content := .str ("Please format your response according to this schema:\n"
      ++ rm.schema.stringified
      ++ "\n\nRespond with only the JSON object, no additional text or formatting.") }

/-- The response-format / instruction-turn decision (source lines 177-192):
with a response model, Gemini-family models get the schema pushed onto
`options.messages` as a system turn and no `response_format`; every other
model gets `zodResponseFormat` and untouched messages. -/
def shapeRequest (client : Client) (options : ChatOptions) :
    ChatOptions × Option ResponseFormat :=
  match options.response_model with
  | some rm =>
    if strStartsWith client.modelName "google/gemini" then
      ({ options with messages := options.messages ++ [schemaInstructionTurn rm] }, none)
    else
      (options, some (zodResponseFormat rm.schema rm.name))
  | none => (options, none)

/-- Projection of one content part to its wire shape (source lines 214-230). -/
def toWirePart : ContentPart → WirePart
  | .image url => .imageUrl url
  | .text t => .text t

/-- The `content.type === "text"` filter of the formatter. -/
def isTextWire : WirePart → Bool
  | .text _ => true
  | .imageUrl _ => false

/-- The message formatter (source lines 211-268): array content is projected
part-wise and then filtered to text-only for `system` and `assistant` roles;
any other content (a plain string) becomes a user turn with that string. -/
def formatMessage (m : ChatMessage) : WireMessage :=
  match m.content with
  | .parts ps =>
    let contentParts := ps.map toWirePart
    match m.role with
    | .system => { role := .system, content := .parts (contentParts.filter isTextWire) }
    | .user => { role := .user, content := .parts contentParts }
    | .assistant => { role := .assistant, content := .parts (contentParts.filter isTextWire) }
  | .str s => { role := .user, content := .str s }

/-- The request body assembled for the remote call (source lines 270-284),
from the (possibly reshaped) options and response format. -/
def bodyFor (client : Client) (o : ChatOptions) (rf : Option ResponseFormat) :
    WireBody :=
  { model := client.modelName
    messages := o.messages.map formatMessage
    response_format := rf
    stream := false
    temperature := o.temperature
    top_p := o.top_p
    frequency_penalty := o.frequency_penalty
    presence_penalty := o.presence_penalty
    tools := o.tools }

/-- Outcome of one attempt: a final answer (`done`: cache hit, success, and
in general anything returned without consulting the retry budget), or a
retryable failure (`retry`) carrying the terminal error message used if the
budget is exhausted, together with the log event that the exhaustion path
would emit (the schema-mismatch error is raised inside the `try` block, so
only at exhaustion does the `catch` log it as a parse failure). -/
inductive AttemptResult
  | done (v : Except String CompletionResult)
  | retry (failMsg : String) (exhaustLog : Option (String × String))

/-- Result of one attempt: its outcome, the options record as it stands after
the attempt (the Gemini branch mutates `options.messages` in place), and the
world state. -/
structure AttemptOut where
  res : AttemptResult
  options : ChatOptions
  st : St

/-- One attempt of `createChatCompletion` after the cache check
(source lines 177-385 minus the retry plumbing): reshape the request, log,
issue the remote call, log, and classify the response. -/
def attemptCore (client : Client) (remote : Nat → Resp)
    (jsonParse : String → Except String JsonValue)
    (options0 : ChatOptions) (st0 : St) : AttemptOut :=
  let sr := shapeRequest client options0
  let options := sr.1
  let responseFormat := sr.2
  let st1 : St := { st0 with logs := st0.logs ++ [LogEvent.creating] }
  let response := remote st1.sentBodies.length
  let st2 : St := { st1 with
    sentBodies := st1.sentBodies ++ [bodyFor client options responseFormat]
    logs := st1.logs ++ [LogEvent.response] }
  match response with
  | .noMessage =>
    ⟨.retry "Invalid or empty response from OpenRouter API" none, options, st2⟩
  | .message content =>
    match options.response_model with
    | none =>
      let st3 := if client.enableCaching then
          { st2 with cache := (cacheSet st2.cache (mkCacheKey client.modelName options)
              (.raw (.message content)) options.requestId) }
        else st2
      ⟨.done (.ok (.raw (.message content))), options, st3⟩
    | some rm =>
      match content with
      | none => ⟨.retry "No content in response" none, options, st2⟩
      | some s =>
        if s = "" then ⟨.retry "No content in response" none, options, st2⟩
        else
          match jsonParse (cleanContent s) with
          | .error e =>
            ⟨.retry ("Failed to parse response: " ++ e) none, options,
              { st2 with logs := st2.logs ++ [LogEvent.failedToParse e s] }⟩
          | .ok parsedData =>
            if validateZodSchema rm.schema parsedData then
              let st3 := if client.enableCaching then
                  { st2 with cache := (cacheSet st2.cache (mkCacheKey client.modelName options)
                      (.parsed parsedData) options.requestId) }
                else st2
              ⟨.done (.ok (.parsed parsedData)), options, st3⟩
            else
              ⟨.retry "Failed to parse response: Response does not match the required schema"
                (some ("Response does not match the required schema", s)), options, st2⟩

/-- One attempt of `createChatCompletion` (source lines 115-385 minus the
retry plumbing): log, consult the cache when enabled (a truthy cached value
short-circuits; `if (cachedResponse)` treats a falsy value as a miss), then
run the post-cache pipeline. -/
def attempt (client : Client) (remote : Nat → Resp)
    (jsonParse : String → Except String JsonValue)
    (options : ChatOptions) (st : St) : AttemptOut :=
  let st1 : St := { st with logs := st.logs ++ [LogEvent.creating] }
  if client.enableCaching then
    match cacheGet st1.cache (mkCacheKey client.modelName options) options.requestId with
    | some v =>
      if v.truthy then
        ⟨.done (.ok v), options, { st1 with logs := st1.logs ++ [LogEvent.cacheHit] }⟩
      else attemptCore client remote jsonParse options st1
    | none => attemptCore client remote jsonParse options st1
  else attemptCore client remote jsonParse options st1

/-- Appends the log event of the exhaustion path, if any (the `catch` block's
"Failed to parse response" event fired by the re-thrown schema error). -/
def exhaustLogs (st : St) : Option (String × String) → St
  | some p => { st with logs := st.logs ++ [LogEvent.failedToParse p.1 p.2] }
  | none => st

/-- `createChatCompletion` (source lines 115-385). The retry plumbing of the
source — each retryable failure checks `retries > 0` and recurses on the same
(mutated) options with `retries - 1`, or throws its terminal error — is the
explicit recursion on the budget; all failure kinds share the one budget. -/
def createChatCompletion (client : Client) (remote : Nat → Resp)
    (jsonParse : String → Except String JsonValue) :
    Nat → ChatOptions → St → Except String CompletionResult × ChatOptions × St
  | 0, options, st =>
    match attempt client remote jsonParse options st with
    | ⟨.done v, o, st1⟩ => (v, o, st1)
    | ⟨.retry msg exh, o, st1⟩ => (.error msg, o, exhaustLogs st1 exh)
  | Nat.succ r, options, st =>
    match attempt client remote jsonParse options st with
    | ⟨.done v, o, st1⟩ => (v, o, st1)
    | ⟨.retry _ _, o, st1⟩ => createChatCompletion client remote jsonParse r o st1

/-- Classification of a remote response as a retryable failure for given
options: no usable first-choice message; or, when a response model is
present, missing/empty content, a JSON parse failure of the cleaned content,
or a schema mismatch of the parsed value. -/
def retryableResp (jsonParse : String → Except String JsonValue)
    (rm : Option ResponseModel) : Resp → Bool
  | .noMessage => true
  | .message content =>
    match rm with
    | none => false
    | some rm =>
      match content with
      | none => true
      | some s =>
        if s = "" then true
        else
          match jsonParse (cleanContent s) with
          | .error _ => true
          | .ok v => !(validateZodSchema rm.schema v)

/-- A text whose maximal leading whitespace run is not followed by three
backticks: the leading-fence pattern cannot match it. -/
def noLeadingFence (cs : List Char) : Bool :=
  !(['`', '`', '`'].isPrefixOf (cs.dropWhile wsChar))

/-- A text whose maximal trailing whitespace run is not preceded by three
backticks: the trailing-fence pattern cannot match it. -/
def noTrailingFence (cs : List Char) : Bool :=
  !(['`', '`', '`'].isPrefixOf (cs.reverse.dropWhile wsChar))

/-- Modelled from the spec: the leading marker as the claim spells it,
`\x60\x60\x60\s*(json)?\n?` — the whitespace run sits after the backticks
instead of before them as in the source's regex. Used only to compare the
claim's wording with the source behaviour. -/
def stripLeadingFenceClaim (cs : List Char) : List Char :=
  if ['`', '`', '`'].isPrefixOf cs then
    let r := (cs.drop 3).dropWhile wsChar
    let r1 := if ['j', 's', 'o', 'n'].isPrefixOf r then r.drop 4 else r
    if r1.head? = some '\n' then r1.tail else r1
  else cs

/-- Modelled from the spec: the cleaning step with the claim's leading
pattern in place of the source's. -/
def cleanContentClaim (s : String) : String :=
  String.mk (trimWS (stripTrailingFence (stripLeadingFenceClaim s.data)))

/-- The text part projection of the formatter, as the spec describes it:
text parts are kept (projected to their wire shape), image parts dropped. -/
def textWireOfPart : ContentPart → Option WirePart
  | .text t => some (.text t)
  | .image _ => none

/-- Recognizer of the parse-failure log event. -/
def isFailedToParse : LogEvent → Bool
  | .failedToParse _ _ => true
  | _ => false

/-- The empty starting world: empty cache, no calls issued, no logs. -/
def emptySt : St := ⟨[], [], []⟩

/-- A zod schema that accepts every value. -/
def acceptSchema : ZodSchema := ⟨fun _ => .ok (), "S"⟩

/-- A zod schema whose `parse` raises on every value. -/
def rejectSchema : ZodSchema := ⟨fun _ => .error "invalid_type", "S"⟩

/-- A response model around `acceptSchema`. -/
def rmAccept : ResponseModel := ⟨"sch", acceptSchema⟩

/-- A response model around `rejectSchema`. -/
def rmReject : ResponseModel := ⟨"sch", rejectSchema⟩

/-- A concrete `JSON.parse` oracle for witnesses: accepts the object text
used in examples and the bare zero, rejects everything else. -/
def sampleParse : String → Except String JsonValue := fun s =>
  if s = "\x7b\"a\":1\x7d" then .ok (.obj [("a", .num 1)])
  else if s = "0" then .ok (.num 0)
  else .error "Unexpected token"

/-- Base options for witnesses: one user turn, no sampling parameters. -/
def baseOptions : ChatOptions :=
  { messages := [⟨.user, .str "hi"⟩], temperature := none, top_p := none
    frequency_penalty := none, presence_penalty := none, image := none
    requestId := "r1", response_model := none, tools := none }

/-- A Gemini-family client without caching. -/
def gemClient : Client := ⟨"google/gemini-2.0-pro-exp-02-05:free", false⟩

/-- A Gemini-family client with caching. -/
def gemCacheClient : Client := ⟨"google/gemini-2.0-pro-exp-02-05:free", true⟩

/-- A non-Gemini client without caching. -/
def plainClient : Client := ⟨"openai/gpt-4o", false⟩

/-- A non-Gemini client with caching. -/
def plainCacheClient : Client := ⟨"openai/gpt-4o", true⟩

/-- Recognizer of the retryable outcome of an attempt. -/
def AttemptResult.isRetry : AttemptResult → Bool
  | .retry _ _ => true
  | .done _ => false

/-- Options asking for `rmAccept` as response model. -/
def optsAccept : ChatOptions := { baseOptions with response_model := some rmAccept }

/-- Options asking for `rmReject` as response model. -/
def optsReject : ChatOptions := { baseOptions with response_model := some rmReject }

/-- A provider that always answers with the bare zero literal. -/
def zeroRemote : Nat → Resp := fun _ => .message (some "0")

/-- A provider that always answers with the sample JSON object text. -/
def objRemote : Nat → Resp := fun _ => .message (some "\x7b\"a\":1\x7d")

/-- The world after a successful schema run that parsed `"0"`: its cache
holds the falsy parsed value `0` under the request's key. -/
def falsyCacheSt : St :=
  ⟨(createChatCompletion plainCacheClient zeroRemote sampleParse 3 optsAccept emptySt).2.2.cache,
   [], []⟩

/-- The world after a successful Gemini schema run: its cache holds the
parsed object, stored under the mutated (instruction-extended) key. -/
def gemStoreSt : St :=
  ⟨(createChatCompletion gemCacheClient objRemote sampleParse 3 optsAccept emptySt).2.2.cache,
   [], []⟩

/-- `optsAccept` with a different request identifier. -/
def optsAccept2 : ChatOptions := { optsAccept with requestId := "r2" }

/-- A world whose cache holds one raw response under `optsAccept`'s key. -/
def seededSt : St :=
  ⟨[(mkCacheKey plainCacheClient.modelName optsAccept, .raw (.message (some "y")))], [], []⟩

end OpenRouter

namespace OpenRouter

theorem stripLeadingFence_id (cs : List Char) (h : noLeadingFence cs = true) :
    stripLeadingFence cs = cs := by
  unfold noLeadingFence at h
  rw [Bool.not_eq_true'] at h
  unfold stripLeadingFence
  simp [h]

theorem stripTrailingFence_id (cs : List Char) (h : noTrailingFence cs = true) :
    stripTrailingFence cs = cs := by
  unfold noTrailingFence at h
  rw [Bool.not_eq_true'] at h
  unfold stripTrailingFence
  simp [h]

/-- C5 (counterexample): the claim fails as stated, in two ways. First,
`" x"` is free of fences, yet cleaning it is not a no-op (the step also
trims, so `" x"` becomes `"x"`). Second, the claim spells the leading marker
`\x60\x60\x60\s*(json)?\n?`, with the whitespace after the backticks; the
source's pattern is `^\s*\x60\x60\x60(?:json)?\n?`, with the whitespace
before them, and on `"\x60\x60\x60 json\nX"` the two disagree: the source
yields `"json\nX"` while the claim's marker would yield `"X"`. -/
theorem c5_counterexample :
    (noLeadingFence " x".data = true ∧ noTrailingFence " x".data = true
      ∧ cleanContent " x" = "x" ∧ " x" ≠ "x")
    ∧ (cleanContent "``` json\nX" = "json\nX"
      ∧ cleanContentClaim "``` json\nX" = "X") := by
  exact ⟨⟨by decide, by decide, by decide, by decide⟩, by decide, by decide⟩

/-- C5 (amended): the content-cleaning step strips a leading code-fence
marker matching `^\s*\x60\x60\x60(?:json)?\n?` and a trailing marker matching
`\n?\x60\x60\x60\s*$` and trims whitespace; cleaning a text free of fences
just trims it, so it is a no-op exactly on fence-free texts with no leading
or trailing whitespace; cleaning the string
`\x60\x60\x60json\n\x7b"a":1\x7d\n\x60\x60\x60` yields `\x7b"a":1\x7d`. -/
theorem c5_cleaning_characterization :
    (∀ s : String, noLeadingFence s.data = true → noTrailingFence s.data = true →
      cleanContent s = String.mk (trimWS s.data))
    ∧ (∀ s : String, noLeadingFence s.data = true → noTrailingFence s.data = true →
      trimWS s.data = s.data → cleanContent s = s)
    ∧ cleanContent "```json\n\x7b\"a\":1\x7d\n```" = "\x7b\"a\":1\x7d" := by
  refine ⟨?_, ?_, by decide⟩
  · intro s h1 h2
    unfold cleanContent
    rw [stripLeadingFence_id _ h1, stripTrailingFence_id _ h2]
  · intro s h1 h2 h3
    unfold cleanContent
    rw [stripLeadingFence_id _ h1, stripTrailingFence_id _ h2, h3]

/-- Witness for the amended C5 at a concrete fence-free trimmed text. -/
theorem c5_witness : cleanContent "abc" = "abc" :=
  c5_cleaning_characterization.2.1 "abc" (by decide) (by decide) (by decide)

theorem filter_map_toWire (ps : List ContentPart) :
    (ps.map toWirePart).filter isTextWire = ps.filterMap textWireOfPart := by
  induction ps with
  | nil => rfl
  | cons p t ih => cases p <;> simp [toWirePart, isTextWire, textWireOfPart, ih]

/-- C6: for a turn with array content, the `system` and `assistant` roles
retain only the text parts (image parts are silently dropped), while the
`user` role retains both text and image parts, each projected to its wire
shape (`toWirePart` sends a text part to `{type: text, text}` and an image
part to `{type: image_url, url}`). -/
theorem c6_role_content_filtering (ps : List ContentPart) :
    formatMessage ⟨Role.system, .parts ps⟩
      = ⟨Role.system, .parts (ps.filterMap textWireOfPart)⟩
    ∧ formatMessage ⟨Role.assistant, .parts ps⟩
      = ⟨Role.assistant, .parts (ps.filterMap textWireOfPart)⟩
    ∧ formatMessage ⟨Role.user, .parts ps⟩
      = ⟨Role.user, .parts (ps.map toWirePart)⟩ := by
  refine ⟨?_, ?_, rfl⟩ <;> simp [formatMessage, filter_map_toWire]

/-- C7: a turn whose content is a plain string is formatted as a user turn
carrying that string verbatim, whatever its declared role. -/
theorem c7_plain_string_user_turn (r : Role) (s : String) :
    formatMessage ⟨r, .str s⟩ = ⟨Role.user, .str s⟩ := rfl

/-- C9: the schema validator is a total boolean predicate: it returns `true`
exactly when the schema's `parse` succeeds on the value, and `false` whenever
`parse` raises a validation error; being `Bool`-valued, it propagates neither
the exception nor its detail. -/
theorem c9_validate_boolean_predicate (schema : ZodSchema) (data : JsonValue) :
    (validateZodSchema schema data = true ↔ schema.parse data = .ok ())
    ∧ (∀ e, schema.parse data = .error e → validateZodSchema schema data = false) := by
  constructor
  · unfold validateZodSchema
    cases h : schema.parse data with
    | ok u => cases u; simp
    | error e => simp
  · intro e he
    unfold validateZodSchema
    rw [he]

/-- Witness for C9 at a concrete schema and value. -/
theorem c9_witness : validateZodSchema acceptSchema JsonValue.null = true :=
  (c9_validate_boolean_predicate acceptSchema JsonValue.null).1.mpr rfl

theorem shape_response_model (client : Client) (o : ChatOptions) :
    (shapeRequest client o).1.response_model = o.response_model := by
  unfold shapeRequest
  rcases h : o.response_model with _ | rm
  · simp [h]
  · by_cases hg : strStartsWith client.modelName "google/gemini" <;> simp [hg, h]

theorem attempt_eq_core (client : Client) (remote : Nat → Resp)
    (jsonParse : String → Except String JsonValue) (o : ChatOptions) (st : St)
    (hc : client.enableCaching = false) :
    attempt client remote jsonParse o st
      = attemptCore client remote jsonParse o { st with logs := st.logs ++ [LogEvent.creating] } := by
  unfold attempt
  simp [hc]

theorem attemptCore_sentBodies (client : Client) (remote : Nat → Resp)
    (jsonParse : String → Except String JsonValue) (o : ChatOptions) (st : St) :
    ((attemptCore client remote jsonParse o st).st).sentBodies
      = st.sentBodies ++ [bodyFor client (shapeRequest client o).1 (shapeRequest client o).2] := by
  unfold attemptCore
  dsimp only
  repeat' split
  all_goals simp

theorem attemptCore_options (client : Client) (remote : Nat → Resp)
    (jsonParse : String → Except String JsonValue) (o : ChatOptions) (st : St) :
    (attemptCore client remote jsonParse o st).options = (shapeRequest client o).1 := by
  unfold attemptCore
  dsimp only
  repeat' split
  all_goals rfl

theorem attempt_options_response_model (client : Client) (remote : Nat → Resp)
    (jsonParse : String → Except String JsonValue) (o : ChatOptions) (st : St) :
    (attempt client remote jsonParse o st).options.response_model = o.response_model := by
  unfold attempt
  dsimp only
  repeat' split
  all_goals simp [attemptCore_options, shape_response_model]

theorem attempt_sentBodies (client : Client) (remote : Nat → Resp)
    (jsonParse : String → Except String JsonValue) (o : ChatOptions) (st : St)
    (hc : client.enableCaching = false) :
    ((attempt client remote jsonParse o st).st).sentBodies
      = st.sentBodies ++ [bodyFor client (shapeRequest client o).1 (shapeRequest client o).2] := by
  rw [attempt_eq_core client remote jsonParse o st hc, attemptCore_sentBodies]

theorem attempt_sentBodies_length (client : Client) (remote : Nat → Resp)
    (jsonParse : String → Except String JsonValue) (o : ChatOptions) (st : St)
    (hc : client.enableCaching = false) :
    ((attempt client remote jsonParse o st).st).sentBodies.length = st.sentBodies.length + 1 := by
  rw [attempt_sentBodies client remote jsonParse o st hc]
  simp

theorem attemptCore_retryable (client : Client) (remote : Nat → Resp)
    (jsonParse : String → Except String JsonValue) (o : ChatOptions) (st : St)
    (h : retryableResp jsonParse o.response_model (remote st.sentBodies.length) = true) :
    ((attemptCore client remote jsonParse o st).res).isRetry = true := by
  unfold attemptCore
  dsimp only
  rw [shape_response_model]
  cases hresp : remote st.sentBodies.length with
  | noMessage => rfl
  | message content =>
    rw [hresp] at h
    unfold retryableResp at h
    cases horm : o.response_model with
    | none => rw [horm] at h; simp at h
    | some rm =>
      rw [horm] at h
      dsimp only at h
      dsimp only
      cases content with
      | none => rfl
      | some s =>
        dsimp only
        dsimp only at h
        by_cases hs : s = ""
        · simp [hs, AttemptResult.isRetry]
        · rw [if_neg hs] at h
          rw [if_neg hs]
          cases hp : jsonParse (cleanContent s) with
          | error e => rfl
          | ok v =>
            rw [hp] at h
            have hv : validateZodSchema rm.schema v = false := by simpa using h
            simp [hv, AttemptResult.isRetry]

theorem attempt_retryable (client : Client) (remote : Nat → Resp)
    (jsonParse : String → Except String JsonValue) (o : ChatOptions) (st : St)
    (hc : client.enableCaching = false)
    (h : retryableResp jsonParse o.response_model (remote st.sentBodies.length) = true) :
    ((attempt client remote jsonParse o st).res).isRetry = true := by
  rw [attempt_eq_core client remote jsonParse o st hc]
  exact attemptCore_retryable client remote jsonParse o _ h

theorem exhaustLogs_sentBodies (st : St) (e : Option (String × String)) :
    (exhaustLogs st e).sentBodies = st.sentBodies := by
  cases e <;> rfl

theorem run_retryable_aux (client : Client) (remote : Nat → Resp)
    (jsonParse : String → Except String JsonValue)
    (hc : client.enableCaching = false) :
    ∀ (N : Nat) (o : ChatOptions) (st : St),
      (∀ n, retryableResp jsonParse o.response_model (remote n) = true) →
      ∃ e o2 st2, createChatCompletion client remote jsonParse N o st = (.error e, o2, st2)
        ∧ st2.sentBodies.length = st.sentBodies.length + N + 1 := by
  intro N
  induction N with
  | zero =>
    intro o st hr
    have hretry := attempt_retryable client remote jsonParse o st hc (hr _)
    have hlen := attempt_sentBodies_length client remote jsonParse o st hc
    rcases ha : attempt client remote jsonParse o st with ⟨ares, o2, st2⟩
    rw [ha] at hretry hlen
    dsimp only at hretry hlen
    cases ares with
    | done v => simp [AttemptResult.isRetry] at hretry
    | retry msg exh =>
      refine ⟨msg, o2, exhaustLogs st2 exh, ?_, ?_⟩
      · simp only [createChatCompletion]
        rw [ha]
      · rw [exhaustLogs_sentBodies]
        simpa using hlen
  | succ n ih =>
    intro o st hr
    have hretry := attempt_retryable client remote jsonParse o st hc (hr _)
    have hlen := attempt_sentBodies_length client remote jsonParse o st hc
    have hrm := attempt_options_response_model client remote jsonParse o st
    rcases ha : attempt client remote jsonParse o st with ⟨ares, o2, st2⟩
    rw [ha] at hretry hlen hrm
    dsimp only at hretry hlen hrm
    cases ares with
    | done v => simp [AttemptResult.isRetry] at hretry
    | retry msg exh =>
      have hr2 : ∀ m, retryableResp jsonParse o2.response_model (remote m) = true := by
        intro m
        rw [hrm]
        exact hr m
      obtain ⟨e, o3, st3, heq, hl⟩ := ih o2 st2 hr2
      refine ⟨e, o3, st3, ?_, ?_⟩
      · simp only [createChatCompletion]
        rw [ha]
        exact heq
      · rw [hl, hlen]
        omega

/-- C1: with caching disabled and a retry budget of N, if every remote call
yields a retryable failure — no usable first-choice message, or (with a
response model) missing content, a JSON parse failure, or a schema mismatch —
then `createChatCompletion` performs exactly N+1 remote calls and then fails.
All failure kinds decrement the one budget `retries`; there is no per-kind
counter, which is why a single hypothesis covering all kinds at once yields
exactly N+1 calls. -/
theorem c1_shared_retry_budget (client : Client) (remote : Nat → Resp)
    (jsonParse : String → Except String JsonValue) (N : Nat) (options : ChatOptions)
    (hc : client.enableCaching = false)
    (hr : ∀ n, retryableResp jsonParse options.response_model (remote n) = true) :
    ∃ e o2 st2, createChatCompletion client remote jsonParse N options emptySt
      = (.error e, o2, st2) ∧ st2.sentBodies.length = N + 1 := by
  obtain ⟨e, o2, st2, heq, hl⟩ := run_retryable_aux client remote jsonParse hc N options emptySt hr
  refine ⟨e, o2, st2, heq, ?_⟩
  rw [hl]
  simp [emptySt]

/-- Witness for C1: a provider that never returns a message, budget 2,
exactly 3 remote calls. -/
theorem c1_witness :
    ∃ e o2 st2, createChatCompletion plainClient (fun _ => Resp.noMessage) sampleParse 2 baseOptions emptySt
      = (.error e, o2, st2) ∧ st2.sentBodies.length = 3 :=
  c1_shared_retry_budget plainClient (fun _ => Resp.noMessage) sampleParse 2 baseOptions rfl
    (fun _ => rfl)

theorem attempt_gemini_noMessage (client : Client) (remote : Nat → Resp)
    (jsonParse : String → Except String JsonValue) (o : ChatOptions) (st : St)
    (rm : ResponseModel)
    (hc : client.enableCaching = false)
    (hg : strStartsWith client.modelName "google/gemini" = true)
    (hrm : o.response_model = some rm)
    (hresp : remote st.sentBodies.length = Resp.noMessage) :
    attempt client remote jsonParse o st =
      ⟨.retry "Invalid or empty response from OpenRouter API" none,
       { o with messages := o.messages ++ [schemaInstructionTurn rm] },
       { st with
          sentBodies := st.sentBodies
            ++ [bodyFor client { o with messages := o.messages ++ [schemaInstructionTurn rm] } none],
          logs := st.logs ++ [LogEvent.creating, LogEvent.creating, LogEvent.response] }⟩ := by
  rw [attempt_eq_core client remote jsonParse o st hc]
  unfold attemptCore shapeRequest
  rw [hrm]
  simp [hg, hresp, List.append_assoc]

theorem c10_aux (client : Client) (remote : Nat → Resp)
    (jsonParse : String → Except String JsonValue) (rm : ResponseModel)
    (hc : client.enableCaching = false)
    (hg : strStartsWith client.modelName "google/gemini" = true)
    (hr : ∀ n, remote n = Resp.noMessage) :
    ∀ (N : Nat) (o : ChatOptions) (st : St), o.response_model = some rm →
      ∃ st2, createChatCompletion client remote jsonParse N o st
        = (.error "Invalid or empty response from OpenRouter API",
           { o with messages := o.messages ++ List.replicate (N+1) (schemaInstructionTurn rm) },
           st2)
        ∧ st2.sentBodies = st.sentBodies ++ (List.range (N+1)).map
            (fun i => bodyFor client
              { o with messages := o.messages ++ List.replicate (i+1) (schemaInstructionTurn rm) }
              none) := by
  intro N
  induction N with
  | zero =>
    intro o st hrm
    simp only [createChatCompletion]
    rw [attempt_gemini_noMessage client remote jsonParse o st rm hc hg hrm (hr _)]
    dsimp only [exhaustLogs]
    refine ⟨{ st with
        sentBodies := st.sentBodies
          ++ [bodyFor client { o with messages := o.messages ++ [schemaInstructionTurn rm] } none],
        logs := st.logs ++ [LogEvent.creating, LogEvent.creating, LogEvent.response] }, ?_, ?_⟩
    · simp
    · simp [List.range_succ, List.replicate_succ]
  | succ n ih =>
    intro o st hrm
    simp only [createChatCompletion]
    rw [attempt_gemini_noMessage client remote jsonParse o st rm hc hg hrm (hr _)]
    dsimp only
    obtain ⟨st2, heq, hsb⟩ :=
      ih { o with messages := o.messages ++ [schemaInstructionTurn rm] } _ hrm
    refine ⟨st2, ?_, ?_⟩
    · rw [heq]
      simp [List.replicate_succ, List.append_assoc]
    · rw [hsb]
      dsimp only
      simp [List.range_succ_eq_map, List.map_map, List.append_assoc, List.replicate_succ,
        List.replicate_one, bodyFor, Function.comp]

/-- C10: `createChatCompletion` mutates the caller-supplied options object —
with a response model and a `google/gemini` model name, each attempt pushes
the schema-instruction system turn onto the shared `options.messages` array,
and every retry recurses on the same object. With budget N and a provider
that never returns a message: the options object handed back holds the
original messages plus N+1 pushed instruction turns, and the k-th attempt
(0-indexed) sends the original messages followed by k+1 instruction copies. -/
theorem c10_options_mutation_growth (client : Client) (remote : Nat → Resp)
    (jsonParse : String → Except String JsonValue) (N : Nat) (o : ChatOptions)
    (rm : ResponseModel)
    (hc : client.enableCaching = false)
    (hg : strStartsWith client.modelName "google/gemini" = true)
    (hrm : o.response_model = some rm)
    (hr : ∀ n, remote n = Resp.noMessage) :
    (createChatCompletion client remote jsonParse N o emptySt).2.1.messages
      = o.messages ++ List.replicate (N+1) (schemaInstructionTurn rm)
    ∧ (createChatCompletion client remote jsonParse N o emptySt).2.2.sentBodies.map
        WireBody.messages
      = (List.range (N+1)).map
          (fun i => (o.messages ++ List.replicate (i+1) (schemaInstructionTurn rm)).map
            formatMessage) := by
  obtain ⟨st2, heq, hsb⟩ := c10_aux client remote jsonParse rm hc hg hr N o emptySt hrm
  rw [heq]
  constructor
  · rfl
  · dsimp only
    rw [hsb]
    simp [emptySt, List.map_map, bodyFor, Function.comp]

/-- Witness for C10: two attempts against a Gemini model; the returned
options carry two instruction copies and the two bodies carry one and two. -/
theorem c10_witness :
    (createChatCompletion gemClient (fun _ => Resp.noMessage) sampleParse 1 optsAccept emptySt).2.1.messages
      = optsAccept.messages ++ List.replicate 2 (schemaInstructionTurn rmAccept)
    ∧ (createChatCompletion gemClient (fun _ => Resp.noMessage) sampleParse 1 optsAccept emptySt).2.2.sentBodies.map
        WireBody.messages
      = (List.range 2).map
          (fun i => (optsAccept.messages ++ List.replicate (i+1) (schemaInstructionTurn rmAccept)).map
            formatMessage) :=
  c10_options_mutation_growth gemClient (fun _ => Resp.noMessage) sampleParse 1 optsAccept
    rmAccept rfl (by decide) rfl (fun _ => rfl)

theorem attempt_schema_mismatch (client : Client) (remote : Nat → Resp)
    (jsonParse : String → Except String JsonValue) (o : ChatOptions) (st : St)
    (rm : ResponseModel) (s : String) (v : JsonValue)
    (hc : client.enableCaching = false)
    (hrm : o.response_model = some rm)
    (hresp : remote st.sentBodies.length = Resp.message (some s))
    (hs : s ≠ "")
    (hp : jsonParse (cleanContent s) = Except.ok v)
    (hv : validateZodSchema rm.schema v = false) :
    attempt client remote jsonParse o st =
      ⟨.retry "Failed to parse response: Response does not match the required schema"
         (some ("Response does not match the required schema", s)),
       (shapeRequest client o).1,
       { st with
          sentBodies := st.sentBodies
            ++ [bodyFor client (shapeRequest client o).1 (shapeRequest client o).2],
          logs := st.logs ++ [LogEvent.creating, LogEvent.creating, LogEvent.response] }⟩ := by
  rw [attempt_eq_core client remote jsonParse o st hc]
  unfold attemptCore
  dsimp only
  rw [shape_response_model, hrm]
  rw [show remote ({ st with logs := st.logs ++ [LogEvent.creating] } : St).sentBodies.length
      = Resp.message (some s) from hresp]
  dsimp only
  rw [if_neg hs, hp]
  simp [hv, List.append_assoc]

theorem c3_aux (client : Client) (remote : Nat → Resp)
    (jsonParse : String → Except String JsonValue) (rm : ResponseModel)
    (s : String) (v : JsonValue)
    (hc : client.enableCaching = false)
    (hr : ∀ n, remote n = Resp.message (some s))
    (hs : s ≠ "")
    (hp : jsonParse (cleanContent s) = Except.ok v)
    (hv : validateZodSchema rm.schema v = false) :
    ∀ (N : Nat) (o : ChatOptions) (st : St), o.response_model = some rm →
      ∃ o2 st2, createChatCompletion client remote jsonParse N o st
        = (.error "Failed to parse response: Response does not match the required schema", o2, st2)
        ∧ st2.sentBodies.length = st.sentBodies.length + N + 1
        ∧ st2.logs.filter isFailedToParse
            = st.logs.filter isFailedToParse
              ++ [LogEvent.failedToParse "Response does not match the required schema" s] := by
  intro N
  induction N with
  | zero =>
    intro o st hrm
    simp only [createChatCompletion]
    rw [attempt_schema_mismatch client remote jsonParse o st rm s v hc hrm (hr _) hs hp hv]
    dsimp only [exhaustLogs]
    refine ⟨_, _, rfl, ?_, ?_⟩
    · simp
    · simp [List.filter_append, isFailedToParse]
  | succ n ih =>
    intro o st hrm
    simp only [createChatCompletion]
    rw [attempt_schema_mismatch client remote jsonParse o st rm s v hc hrm (hr _) hs hp hv]
    dsimp only
    obtain ⟨o2, st2, heq, hl, hlog⟩ :=
      ih (shapeRequest client o).1 _ (by rw [shape_response_model]; exact hrm)
    refine ⟨o2, st2, heq, ?_, ?_⟩
    · rw [hl]
      dsimp only
      simp
      omega
    · rw [hlog]
      simp [List.filter_append, isFailedToParse]

/-- C3 (counterexample): at budget zero with a parsed value failing schema
validation, the terminal error is not "Response does not match the required
schema": the source throws that error inside its own `try` block, the `catch`
intercepts it, logs it as "Failed to parse response", and re-throws it
wrapped as "Failed to parse response: Response does not match the required
schema". -/
theorem c3_counterexample :
    (createChatCompletion plainClient objRemote sampleParse 0 optsReject emptySt).1
      = .error "Failed to parse response: Response does not match the required schema"
    ∧ (createChatCompletion plainClient objRemote sampleParse 0 optsReject emptySt).1
      ≠ .error "Response does not match the required schema" := by
  have h1 : (createChatCompletion plainClient objRemote sampleParse 0 optsReject emptySt).1
      = .error "Failed to parse response: Response does not match the required schema" := rfl
  refine ⟨h1, ?_⟩
  rw [h1]
  intro hcontra
  exact absurd (Except.error.inj hcontra) (by decide)

/-- C3 (amended): when the parsed value fails schema validation,
`createChatCompletion` retries while the budget is positive (emitting no log
event for the mismatch on those attempts), and at budget zero the schema
error is intercepted by the parse-failure `catch`: the run fails with
"Failed to parse response: Response does not match the required schema", and
the only parse-failure log event of the whole run is the one emitted at
exhaustion, carrying the schema-mismatch text — so schema mismatch is
distinguished from a JSON parse failure only by the error text embedded in
the shared parse-failure message and log event, not by a separate kind. -/
theorem c3_schema_mismatch_behaviour (client : Client) (remote : Nat → Resp)
    (jsonParse : String → Except String JsonValue) (N : Nat) (o : ChatOptions)
    (rm : ResponseModel) (s : String) (v : JsonValue)
    (hc : client.enableCaching = false)
    (hrm : o.response_model = some rm)
    (hr : ∀ n, remote n = Resp.message (some s))
    (hs : s ≠ "")
    (hp : jsonParse (cleanContent s) = Except.ok v)
    (hv : validateZodSchema rm.schema v = false) :
    ∃ o2 st2, createChatCompletion client remote jsonParse N o emptySt
      = (.error "Failed to parse response: Response does not match the required schema", o2, st2)
      ∧ st2.sentBodies.length = N + 1
      ∧ st2.logs.filter isFailedToParse
          = [LogEvent.failedToParse "Response does not match the required schema" s] := by
  obtain ⟨o2, st2, heq, hl, hlog⟩ :=
    c3_aux client remote jsonParse rm s v hc hr hs hp hv N o emptySt hrm
  refine ⟨o2, st2, heq, ?_, ?_⟩
  · rw [hl]; simp [emptySt]
  · rw [hlog]; simp [emptySt]

/-- Witness for the amended C3: budget 1, a schema rejecting everything,
two remote calls, the wrapped terminal message, one exhaustion log. -/
theorem c3_witness :
    ∃ o2 st2, createChatCompletion plainClient objRemote sampleParse 1 optsReject emptySt
      = (.error "Failed to parse response: Response does not match the required schema", o2, st2)
      ∧ st2.sentBodies.length = 2
      ∧ st2.logs.filter isFailedToParse
          = [LogEvent.failedToParse "Response does not match the required schema" "\x7b\"a\":1\x7d"] :=
  c3_schema_mismatch_behaviour plainClient objRemote sampleParse 1 optsReject rmReject
    "\x7b\"a\":1\x7d" (.obj [("a", .num 1)]) rfl rfl (fun _ => rfl) (by decide) rfl rfl

theorem run_sentBodies_prefix (client : Client) (remote : Nat → Resp)
    (jsonParse : String → Except String JsonValue)
    (hc : client.enableCaching = false) :
    ∀ (N : Nat) (o : ChatOptions) (st : St),
      ∃ t, (createChatCompletion client remote jsonParse N o st).2.2.sentBodies
        = st.sentBodies ++ t := by
  intro N
  induction N with
  | zero =>
    intro o st
    have hsb := attempt_sentBodies client remote jsonParse o st hc
    rcases ha : attempt client remote jsonParse o st with ⟨ares, o2, st2⟩
    rw [ha] at hsb
    dsimp only at hsb
    cases ares with
    | done v =>
      refine ⟨[bodyFor client (shapeRequest client o).1 (shapeRequest client o).2], ?_⟩
      simp only [createChatCompletion]
      rw [ha]
      exact hsb
    | retry msg exh =>
      refine ⟨[bodyFor client (shapeRequest client o).1 (shapeRequest client o).2], ?_⟩
      simp only [createChatCompletion]
      rw [ha]
      dsimp only
      rw [exhaustLogs_sentBodies]
      exact hsb
  | succ n ih =>
    intro o st
    have hsb := attempt_sentBodies client remote jsonParse o st hc
    rcases ha : attempt client remote jsonParse o st with ⟨ares, o2, st2⟩
    rw [ha] at hsb
    dsimp only at hsb
    cases ares with
    | done v =>
      refine ⟨[bodyFor client (shapeRequest client o).1 (shapeRequest client o).2], ?_⟩
      simp only [createChatCompletion]
      rw [ha]
      exact hsb
    | retry msg exh =>
      obtain ⟨t, ht⟩ := ih o2 st2
      refine ⟨[bodyFor client (shapeRequest client o).1 (shapeRequest client o).2] ++ t, ?_⟩
      simp only [createChatCompletion]
      rw [ha]
      dsimp only
      rw [ht, hsb, List.append_assoc]

theorem run_first_body (client : Client) (remote : Nat → Resp)
    (jsonParse : String → Except String JsonValue)
    (hc : client.enableCaching = false) (N : Nat) (o : ChatOptions) (st : St) :
    ∃ t, (createChatCompletion client remote jsonParse N o st).2.2.sentBodies
      = st.sentBodies
        ++ bodyFor client (shapeRequest client o).1 (shapeRequest client o).2 :: t := by
  have hsb := attempt_sentBodies client remote jsonParse o st hc
  rcases ha : attempt client remote jsonParse o st with ⟨ares, o2, st2⟩
  rw [ha] at hsb
  dsimp only at hsb
  cases N with
  | zero =>
    cases ares with
    | done v =>
      refine ⟨[], ?_⟩
      simp only [createChatCompletion]
      rw [ha]
      exact hsb
    | retry msg exh =>
      refine ⟨[], ?_⟩
      simp only [createChatCompletion]
      rw [ha]
      dsimp only
      rw [exhaustLogs_sentBodies]
      exact hsb
  | succ n =>
    cases ares with
    | done v =>
      refine ⟨[], ?_⟩
      simp only [createChatCompletion]
      rw [ha]
      exact hsb
    | retry msg exh =>
      obtain ⟨t, ht⟩ := run_sentBodies_prefix client remote jsonParse hc n o2 st2
      refine ⟨t, ?_⟩
      simp only [createChatCompletion]
      rw [ha]
      dsimp only
      rw [ht, hsb]
      simp [List.append_assoc]

/-- C4: when the request carries a response model, the body of the first
remote call reflects the model-family decision: for a `google/gemini` model
the messages sent are the caller's messages with the schema-instruction
system turn appended and no response-format directive; for any other model
the body carries `zodResponseFormat` built from the schema and the caller's
messages unchanged. -/
theorem c4_schema_request_shaping (client : Client) (remote : Nat → Resp)
    (jsonParse : String → Except String JsonValue) (N : Nat) (o : ChatOptions)
    (rm : ResponseModel)
    (hc : client.enableCaching = false)
    (hrm : o.response_model = some rm) :
    ∃ b t, (createChatCompletion client remote jsonParse N o emptySt).2.2.sentBodies = b :: t
      ∧ (strStartsWith client.modelName "google/gemini" = true →
          b.response_format = none
          ∧ b.messages = (o.messages ++ [schemaInstructionTurn rm]).map formatMessage)
      ∧ (strStartsWith client.modelName "google/gemini" = false →
          b.response_format = some (zodResponseFormat rm.schema rm.name)
          ∧ b.messages = o.messages.map formatMessage) := by
  obtain ⟨t, ht⟩ := run_first_body client remote jsonParse hc N o emptySt
  refine ⟨bodyFor client (shapeRequest client o).1 (shapeRequest client o).2, t, ?_, ?_, ?_⟩
  · rw [ht]
    simp [emptySt]
  · intro hg
    have hsr : shapeRequest client o
        = ({ o with messages := o.messages ++ [schemaInstructionTurn rm] }, none) := by
      unfold shapeRequest
      rw [hrm]
      simp [hg]
    rw [hsr]
    exact ⟨rfl, rfl⟩
  · intro hg
    have hsr : shapeRequest client o = (o, some (zodResponseFormat rm.schema rm.name)) := by
      unfold shapeRequest
      rw [hrm]
      simp [hg]
    rw [hsr]
    exact ⟨rfl, rfl⟩

/-- Witness for C4: a Gemini client with a response model; the first body
has no response format and carries the appended instruction turn. -/
theorem c4_witness :
    ∃ b t, (createChatCompletion gemClient (fun _ => Resp.noMessage) sampleParse 1 optsAccept emptySt).2.2.sentBodies = b :: t
      ∧ (strStartsWith gemClient.modelName "google/gemini" = true →
          b.response_format = none
          ∧ b.messages = (optsAccept.messages ++ [schemaInstructionTurn rmAccept]).map formatMessage)
      ∧ (strStartsWith gemClient.modelName "google/gemini" = false →
          b.response_format = some (zodResponseFormat rmAccept.schema rmAccept.name)
          ∧ b.messages = optsAccept.messages.map formatMessage) :=
  c4_schema_request_shaping gemClient (fun _ => Resp.noMessage) sampleParse 1 optsAccept
    rmAccept rfl rfl

theorem attempt_cache_hit (client : Client) (remote : Nat → Resp)
    (jsonParse : String → Except String JsonValue) (o : ChatOptions) (st : St)
    (v : CompletionResult)
    (hc : client.enableCaching = true)
    (hget : cacheGet st.cache (mkCacheKey client.modelName o) o.requestId = some v)
    (htr : v.truthy = true) :
    attempt client remote jsonParse o st
      = ⟨.done (.ok v), o, { st with logs := st.logs ++ [LogEvent.creating, LogEvent.cacheHit] }⟩ := by
  unfold attempt
  dsimp only
  rw [hc]
  simp only [if_true]
  rw [hget]
  dsimp only
  rw [htr]
  simp [List.append_assoc]

/-- C8 (amended): when caching is enabled and the cache lookup returns a
truthy value, `createChatCompletion` returns that value unchanged, issues no
remote call, touches neither cache nor call list, and reads no retry budget
(the result is the same for every `retries`). The truthiness condition is
what the counterexample forces: `if (cachedResponse)` treats a falsy cached
value (parsed `null`, `false`, `0` or `""`) as a miss. -/
theorem c8_truthy_cache_hit (client : Client) (remote : Nat → Resp)
    (jsonParse : String → Except String JsonValue) (retries : Nat) (o : ChatOptions)
    (st : St) (v : CompletionResult)
    (hc : client.enableCaching = true)
    (hget : cacheGet st.cache (mkCacheKey client.modelName o) o.requestId = some v)
    (htr : v.truthy = true) :
    createChatCompletion client remote jsonParse retries o st
      = (.ok v, o, { st with logs := st.logs ++ [LogEvent.creating, LogEvent.cacheHit] }) := by
  cases retries <;>
  · simp only [createChatCompletion]
    rw [attempt_cache_hit client remote jsonParse o st v hc hget htr]

/-- Witness for the amended C8: a seeded truthy entry is returned with no
remote call and the state unchanged but for the two log events. -/
theorem c8_witness :
    createChatCompletion plainCacheClient objRemote sampleParse 3 optsAccept seededSt
      = (.ok (.raw (.message (some "y"))), optsAccept,
         { seededSt with logs := seededSt.logs ++ [LogEvent.creating, LogEvent.cacheHit] }) :=
  c8_truthy_cache_hit plainCacheClient objRemote sampleParse 3 optsAccept seededSt
    (.raw (.message (some "y"))) rfl rfl rfl

/-- C8 (counterexample): the cache can hold a falsy value — a run whose
response text is `"0"` parses and validates it and stores `parsed 0`. On the
next identical request the lookup returns that value, yet the client treats
it as a miss and issues a remote call, contradicting the claim's "returns
that cached value, no remote call" for every request. -/
theorem c8_counterexample :
    (cacheGet falsyCacheSt.cache (mkCacheKey plainCacheClient.modelName optsAccept)
        optsAccept.requestId).map CompletionResult.truthy = some false
    ∧ (createChatCompletion plainCacheClient zeroRemote sampleParse 3 optsAccept
        falsyCacheSt).2.2.sentBodies.length = 1 :=
  ⟨rfl, rfl⟩

/-- C2 (amended): the cache key is derived from {model, messages,
temperature, top_p, frequency_penalty, presence_penalty, image, schema-name}
and excludes the request identifier: a stored truthy entry under a request's
key is returned verbatim, without a remote call, to any request differing
only in its request identifier. (Two caveats the counterexamples force: the
cached value must be truthy, and for a `google/gemini` request with a
response model the successful run stores under a key containing the
instruction turns it pushed onto the shared messages array, so the entry it
stored is not found by a later identical request.) -/
theorem c2_cache_key_excludes_requestId (client : Client) (remote : Nat → Resp)
    (jsonParse : String → Except String JsonValue) (retries : Nat) (o1 : ChatOptions)
    (rid2 : String) (st : St) (v : CompletionResult)
    (hc : client.enableCaching = true)
    (hget : cacheGet st.cache (mkCacheKey client.modelName o1) o1.requestId = some v)
    (htr : v.truthy = true) :
    createChatCompletion client remote jsonParse retries { o1 with requestId := rid2 } st
      = (.ok v, { o1 with requestId := rid2 },
         { st with logs := st.logs ++ [LogEvent.creating, LogEvent.cacheHit] }) := by
  have hget2 : cacheGet st.cache
      (mkCacheKey client.modelName { o1 with requestId := rid2 })
      ({ o1 with requestId := rid2 } : ChatOptions).requestId = some v := hget
  cases retries <;>
  · simp only [createChatCompletion]
    rw [attempt_cache_hit client remote jsonParse _ st v hc hget2 htr]

/-- Witness for the amended C2: an entry stored under requestId "r1" is
returned for the identical request with requestId "r9". -/
theorem c2_witness :
    createChatCompletion plainCacheClient objRemote sampleParse 3
        { optsAccept with requestId := "r9" } seededSt
      = (.ok (.raw (.message (some "y"))), { optsAccept with requestId := "r9" },
         { seededSt with logs := seededSt.logs ++ [LogEvent.creating, LogEvent.cacheHit] }) :=
  c2_cache_key_excludes_requestId plainCacheClient objRemote sampleParse 3 optsAccept "r9"
    seededSt (.raw (.message (some "y"))) rfl rfl rfl

/-- C2 (counterexample): a Gemini request with a response model. The first
run succeeds and stores one entry — but under the key holding the mutated
messages array (with the pushed instruction turn). The second, identical
request (different request identifier only) looks up the unmutated key,
misses, and issues a remote call, contradicting "returned verbatim for the
second without a remote call". -/
theorem c2_counterexample :
    gemStoreSt.cache.length = 1
    ∧ cacheGet gemStoreSt.cache (mkCacheKey gemCacheClient.modelName optsAccept2) "r2" = none
    ∧ (createChatCompletion gemCacheClient objRemote sampleParse 3 optsAccept2
        gemStoreSt).2.2.sentBodies.length = 1 :=
  ⟨rfl, rfl, rfl⟩

end OpenRouter
